import Mathlib

/-!
Verification of the raster/vector facade described by the repository's
specification.  The repository itself is a tutorial notebook
(`src/notebooks/intro_geoutils.py`) whose every operation is delegated to
external geospatial libraries, so the operations below are modelled from the
specification's own component design (RasterDataset, VectorDataset,
TerrainOps, GridAlgebra).  Numeric samples are modelled as rationals, so
"within floating-point tolerance" is realised as exact equality.
-/

namespace XdemDemo

/-- Modelled from the spec: a `RasterDataset` is a grid of numeric samples
with width, height, per-axis resolution, an affine transform given by the
upper-left origin and pixel size, a CRS identifier, and an optional validity
mask (an invalid pixel is `none`).  Samples are stored row-major. -/
structure RasterDataset where
  width : Nat
  height : Nat
  resx : ℚ
  resy : ℚ
  originx : ℚ
  originy : ℚ
  crs : Nat
  data : List (Option ℚ)
deriving DecidableEq

/-- Modelled from the spec: the invariant `width * height == sample_count`. -/
def RasterDataset.wf (d : RasterDataset) : Prop :=
  d.data.length = d.width * d.height

instance (d : RasterDataset) : Decidable d.wf := by
  unfold RasterDataset.wf; infer_instance

/-- Modelled from the spec: the extent (bounds) of a raster, derived from the
origin (upper-left corner), the pixel resolution and the grid dimensions.
Fields follow the rasterio convention (left, bottom, right, top). -/
structure Bounds where
  left : ℚ
  bottom : ℚ
  right : ℚ
  top : ℚ
deriving DecidableEq

/-- Modelled from the spec: bounds are derivable from origin, resolution and
width/height. -/
def RasterDataset.bounds (d : RasterDataset) : Bounds :=
  { left := d.originx
    bottom := d.originy - (d.height : ℚ) * d.resy
    right := d.originx + (d.width : ℚ) * d.resx
    top := d.originy }

/-- Modelled from the spec: the error kinds surfaced to the caller:
file-not-found/unreadable (I/O kind), shape/CRS mismatch between operands
(Geometry kind), invalid reprojection parameter combination (Configuration
kind). -/
inductive GeoError where
  | ioError : GeoError
  | shapeMismatchError : GeoError
  | geometryError : GeoError
deriving DecidableEq

/-- Modelled from the spec: two rasters are compatible for elementwise
arithmetic when they have the same shape and the same CRS. -/
def compatible (a b : RasterDataset) : Prop :=
  a.width = b.width ∧ a.height = b.height ∧ a.crs = b.crs

instance (a b : RasterDataset) : Decidable (compatible a b) := by
  unfold compatible; infer_instance

/-- Pointwise difference of two optional samples: the result is invalid
whenever either operand is invalid. -/
def subSample (x y : Option ℚ) : Option ℚ :=
  match x, y with
  | some u, some v => some (u - v)
  | _, _ => none

/-- Modelled from the spec: GridAlgebra's elementwise subtraction of two
same-grid rasters producing a difference raster; it fails with
`ShapeMismatchError` unless the operands are compatible (same shape/CRS). -/
def sub (a b : RasterDataset) : Except GeoError RasterDataset :=
  if compatible a b then
    .ok { a with data := List.zipWith subSample a.data b.data }
  else
    .error .shapeMismatchError

/-- The valid samples of a raster, in row-major order. -/
def validVals (d : RasterDataset) : List ℚ :=
  d.data.reduceOption

theorem subSample_self_mem_zero (l : List (Option ℚ)) :
    ∀ q ∈ (List.zipWith subSample l l).reduceOption, q = 0 := by
  induction l with
  | nil => simp
  | cons x xs ih =>
    intro q hq
    rw [List.zipWith_cons_cons] at hq
    cases x with
    | none =>
      rw [show subSample none none = none from rfl,
        List.reduceOption_cons_of_none] at hq
      exact ih q hq
    | some u =>
      rw [show subSample (some u) (some u) = some (u - u) from rfl,
        List.reduceOption_cons_of_some] at hq
      rcases List.mem_cons.1 hq with h | h
      · rw [h]; ring
      · exact ih q h

/-- The sample of `d` at row `i`, column `j` (row-major); `none` outside the
grid or at an invalid pixel. -/
def sampleAt (d : RasterDataset) (i j : Nat) : Option ℚ :=
  if i < d.height ∧ j < d.width then d.data.getD (i * d.width + j) none else none

/-- Abscissa of the centre of column `j` of raster `r`. -/
def pixelCenterX (r : RasterDataset) (j : Nat) : ℚ :=
  r.originx + ((j : ℚ) + 1/2) * r.resx

/-- Ordinate of the centre of row `i` of raster `r` (the origin is the
upper-left corner, rows go downwards). -/
def pixelCenterY (r : RasterDataset) (i : Nat) : ℚ :=
  r.originy - ((i : ℚ) + 1/2) * r.resy

/-- Column index of source raster `d` containing abscissa `x`. -/
def srcCol (d : RasterDataset) (x : ℚ) : Int :=
  Int.floor ((x - d.originx) / d.resx)

/-- Row index of source raster `d` containing ordinate `y`. -/
def srcRow (d : RasterDataset) (y : ℚ) : Int :=
  Int.floor ((d.originy - y) / d.resy)

/-- Nearest-neighbour resampling of source `d` at target pixel `(i, j)` of
the grid of `ref`: the source pixel containing the target pixel's centre, or
`none` when that centre falls outside the source grid. -/
def resamplePixel (d ref : RasterDataset) (i j : Nat) : Option ℚ :=
  if 0 ≤ srcRow d (pixelCenterY ref i) ∧
      srcRow d (pixelCenterY ref i) < (d.height : Int) ∧
      0 ≤ srcCol d (pixelCenterX ref j) ∧
      srcCol d (pixelCenterX ref j) < (d.width : Int) then
    sampleAt d (srcRow d (pixelCenterY ref i)).toNat
      (srcCol d (pixelCenterX ref j)).toNat
  else none

/-- Modelled from the spec: reprojection of `d` onto the grid of a reference
dataset `ref`: a new dataset resampled onto the reference grid, failing with
the Configuration-kind error when the grid parameters are contradictory (a
non-positive pixel size).  Implementing the CRS coordinate transformation is
a declared non-goal of the spec, so source and reference coordinates are
taken in a common coordinate space. -/
def reproject (d ref : RasterDataset) : Except GeoError RasterDataset :=
  if d.resx ≤ 0 ∨ d.resy ≤ 0 ∨ ref.resx ≤ 0 ∨ ref.resy ≤ 0 then
    .error .geometryError
  else
    .ok { width := ref.width, height := ref.height,
          resx := ref.resx, resy := ref.resy,
          originx := ref.originx, originy := ref.originy,
          crs := ref.crs,
          data := (List.range (ref.width * ref.height)).map fun k =>
            resamplePixel d ref (k / ref.width) (k % ref.width) }

theorem srcCol_center_self (d : RasterDataset) (hx : 0 < d.resx) (j : Nat) :
    srcCol d (pixelCenterX d j) = j := by
  unfold srcCol pixelCenterX
  rw [add_sub_cancel_left, mul_div_cancel_right₀ _ (ne_of_gt hx),
    show ((j : ℚ) + 1/2) = ((j : ℤ) : ℚ) + 1/2 by push_cast; ring,
    Int.floor_int_add]
  norm_num

theorem srcRow_center_self (d : RasterDataset) (hy : 0 < d.resy) (i : Nat) :
    srcRow d (pixelCenterY d i) = i := by
  unfold srcRow pixelCenterY
  rw [sub_sub_cancel, mul_div_cancel_right₀ _ (ne_of_gt hy),
    show ((i : ℚ) + 1/2) = ((i : ℤ) : ℚ) + 1/2 by push_cast; ring,
    Int.floor_int_add]
  norm_num

theorem resamplePixel_self (d : RasterDataset) (hx : 0 < d.resx)
    (hy : 0 < d.resy) (i j : Nat) (hi : i < d.height) (hj : j < d.width) :
    resamplePixel d d i j = d.data.getD (i * d.width + j) none := by
  unfold resamplePixel
  rw [srcCol_center_self d hx j, srcRow_center_self d hy i]
  rw [if_pos ⟨Int.ofNat_nonneg i, by exact_mod_cast hi, Int.ofNat_nonneg j,
    by exact_mod_cast hj⟩]
  simp only [Int.toNat_ofNat]
  unfold sampleAt
  rw [if_pos ⟨hi, hj⟩]

theorem range_map_getD (l : List (Option ℚ)) :
    (List.range l.length).map (fun k => l.getD k none) = l := by
  apply List.ext_getElem?
  intro i
  rw [List.getElem?_map]
  by_cases h : i < l.length
  · rw [List.getElem?_range h, List.getElem?_eq_getElem h,
      Option.map_some', List.getD_eq_getElem l none h]
  · rw [List.getElem?_eq_none (by simpa using le_of_not_lt h),
      List.getElem?_eq_none (le_of_not_lt h), Option.map_none']

theorem reproject_self (d : RasterDataset) (hwf : d.wf)
    (hx : 0 < d.resx) (hy : 0 < d.resy) :
    reproject d d = .ok d := by
  have hstep : ∀ k ∈ List.range (d.width * d.height),
      resamplePixel d d (k / d.width) (k % d.width) = d.data.getD k none := by
    intro k hk
    rw [List.mem_range] at hk
    have hw : 0 < d.width := by
      rcases Nat.eq_zero_or_pos d.width with h0 | h0
      · rw [h0] at hk; simp at hk
      · exact h0
    have hi : k / d.width < d.height := Nat.div_lt_of_lt_mul hk
    have hj : k % d.width < d.width := Nat.mod_lt _ hw
    rw [resamplePixel_self d hx hy _ _ hi hj,
      show k / d.width * d.width + k % d.width = k from Nat.div_add_mod' k d.width]
  have hdata : (List.range (d.width * d.height)).map
      (fun k => resamplePixel d d (k / d.width) (k % d.width)) = d.data := by
    rw [List.map_congr_left hstep, ← hwf, range_map_getD]
  unfold reproject
  rw [if_neg (by push_neg; exact ⟨hx, hy, hx, hy⟩), hdata]

/-- Modelled from the spec: the content written by `save` — pass-through of
the raster grid plus its metadata. -/
structure RasterFile where
  width : Nat
  height : Nat
  resx : ℚ
  resy : ℚ
  originx : ℚ
  originy : ℚ
  crs : Nat
  samples : List (Option ℚ)
deriving DecidableEq

/-- Modelled from the spec: `save(path)` writes grid + metadata. -/
def encodeRaster (d : RasterDataset) : RasterFile :=
  ⟨d.width, d.height, d.resx, d.resy, d.originx, d.originy, d.crs, d.data⟩

/-- Modelled from the spec: `load` rebuilds a dataset from a file, failing
with the I/O-kind error on a corrupt file (sample count inconsistent with
the recorded shape). -/
def decodeRaster (f : RasterFile) : Except GeoError RasterDataset :=
  if f.samples.length = f.width * f.height then
    .ok ⟨f.width, f.height, f.resx, f.resy, f.originx, f.originy, f.crs, f.samples⟩
  else
    .error .ioError

/-- Modelled from the spec: the file system visible to `save`/`load`, as a
map from paths to file contents. -/
def Store : Type := String → Option RasterFile

/-- A file system with no files. -/
def emptyStore : Store := fun _ => none

/-- Modelled from the spec: `save(d, path)` writes `d`'s grid and metadata at
`path`. -/
def save (st : Store) (p : String) (d : RasterDataset) : Store :=
  fun q => if q = p then some (encodeRaster d) else st q

/-- Modelled from the spec: `load(path)` yields a dataset, or fails with the
I/O-kind error on a missing or unreadable file. -/
def load (st : Store) (p : String) : Except GeoError RasterDataset :=
  match st p with
  | none => .error .ioError
  | some f => decodeRaster f

theorem load_save (st : Store) (p : String) (d : RasterDataset)
    (hwf : d.wf) : load (save st p d) p = .ok d := by
  have hlen : d.data.length = d.width * d.height := hwf
  simp [load, save, decodeRaster, encodeRaster, hlen]

/-- Modelled from the spec: a boolean mask raster, as produced by
rasterizing vector data onto a reference grid. -/
structure MaskRaster where
  width : Nat
  height : Nat
  resx : ℚ
  resy : ℚ
  originx : ℚ
  originy : ℚ
  crs : Nat
  data : List Bool
deriving DecidableEq

/-- The shape invariant for mask rasters. -/
def MaskRaster.wf (m : MaskRaster) : Prop :=
  m.data.length = m.width * m.height

/-- The mean of a list of rationals, `none` for an empty list. -/
def meanQ (l : List ℚ) : Option ℚ :=
  if l.length = 0 then none else some (l.sum / (l.length : ℚ))

/-- Modelled from the spec: the unmasked mean of a raster, taken over its
valid samples. -/
def rasterMean (d : RasterDataset) : Option ℚ :=
  meanQ (validVals d)

/-- The valid samples of `d` at the pixels selected by the mask data `m`. -/
def maskedVals (d : RasterDataset) (m : MaskRaster) : List ℚ :=
  ((d.data.zip m.data).filterMap fun p => if p.2 then p.1 else none)

/-- Modelled from the spec: GridAlgebra's masked mean — the mean of a raster
restricted to a boolean mask raster of identical shape, failing with
`ShapeMismatchError` on a shape mismatch. -/
def maskedMean (d : RasterDataset) (m : MaskRaster) :
    Except GeoError (Option ℚ) :=
  if d.width = m.width ∧ d.height = m.height then
    .ok (meanQ (maskedVals d m))
  else
    .error .shapeMismatchError

/-- The all-true mask on the grid of `d`. -/
def fullMask (d : RasterDataset) : MaskRaster :=
  { width := d.width, height := d.height, resx := d.resx, resy := d.resy,
    originx := d.originx, originy := d.originy, crs := d.crs,
    data := List.replicate d.data.length true }

theorem maskedVals_fullMask (d : RasterDataset) :
    maskedVals d (fullMask d) = validVals d := by
  show ((d.data.zip (List.replicate d.data.length true)).filterMap
      fun p => if p.2 then p.1 else none) = d.data.reduceOption
  induction d.data with
  | nil => rfl
  | cons x xs ih =>
    rw [List.length_cons, List.replicate_succ, List.zip_cons_cons,
      List.filterMap_cons]
    cases x with
    | none =>
      simpa [List.reduceOption_cons_of_none] using ih
    | some u =>
      simpa [List.reduceOption_cons_of_some] using ih

/-- Modelled from the spec: a geometry of a vector dataset, modelled as an
axis-aligned rational box (a closed rectangle; lines and points are
degenerate boxes). -/
structure Geom where
  xmin : ℚ
  xmax : ℚ
  ymin : ℚ
  ymax : ℚ
deriving DecidableEq

/-- A geometry is well-formed when its box is nonempty. -/
def Geom.wf (g : Geom) : Prop := g.xmin ≤ g.xmax ∧ g.ymin ≤ g.ymax

instance (g : Geom) : Decidable g.wf := by
  unfold Geom.wf; infer_instance

/-- Membership of a point in a geometry. -/
def Geom.contains (g : Geom) (x y : ℚ) : Prop :=
  g.xmin ≤ x ∧ x ≤ g.xmax ∧ g.ymin ≤ y ∧ y ≤ g.ymax

/-- Modelled from the spec: a `VectorDataset` wraps an ordered geometry
collection with a shared CRS identifier (per-geometry attributes play no
role in the verified claims and are omitted). -/
structure VectorDataset where
  crs : Nat
  geoms : List Geom
deriving DecidableEq

/-- Left edge of column `j` of raster `r`. -/
def pixelXmin (r : RasterDataset) (j : Nat) : ℚ := r.originx + (j : ℚ) * r.resx

/-- Right edge of column `j` of raster `r`. -/
def pixelXmax (r : RasterDataset) (j : Nat) : ℚ :=
  r.originx + ((j : ℚ) + 1) * r.resx

/-- Bottom edge of row `i` of raster `r`. -/
def pixelYmin (r : RasterDataset) (i : Nat) : ℚ :=
  r.originy - ((i : ℚ) + 1) * r.resy

/-- Top edge of row `i` of raster `r`. -/
def pixelYmax (r : RasterDataset) (i : Nat) : ℚ := r.originy - (i : ℚ) * r.resy

/-- Membership of a point in the closed box of pixel `(i, j)` of `r`. -/
def pixelContains (r : RasterDataset) (i j : Nat) (x y : ℚ) : Prop :=
  pixelXmin r j ≤ x ∧ x ≤ pixelXmax r j ∧
    pixelYmin r i ≤ y ∧ y ≤ pixelYmax r i

/-- Box-overlap test between a geometry and pixel `(i, j)` of `r`. -/
def geomHitsPixel (g : Geom) (r : RasterDataset) (i j : Nat) : Bool :=
  decide (g.xmin ≤ pixelXmax r j ∧ pixelXmin r j ≤ g.xmax ∧
    g.ymin ≤ pixelYmax r i ∧ pixelYmin r i ≤ g.ymax)

/-- Modelled from the spec: rasterize / `create_mask` onto a reference
raster grid — a boolean mask raster aligned to the reference grid's shape,
true where geometry coverage intersects a pixel. -/
def create_mask (v : VectorDataset) (r : RasterDataset) : MaskRaster :=
  { width := r.width, height := r.height, resx := r.resx, resy := r.resy,
    originx := r.originx, originy := r.originy, crs := r.crs,
    data := (List.range (r.width * r.height)).map fun k =>
      v.geoms.any fun g => geomHitsPixel g r (k / r.width) (k % r.width) }

/-- The coverage of some geometry of `v` meets the box of pixel `(i, j)`. -/
def coverageIntersects (v : VectorDataset) (r : RasterDataset)
    (i j : Nat) : Prop :=
  ∃ g ∈ v.geoms, ∃ x y : ℚ, g.contains x y ∧ pixelContains r i j x y

theorem interval_overlap {a b c e : ℚ} (hab : a ≤ b) (hce : c ≤ e) :
    (a ≤ e ∧ c ≤ b) ↔ ∃ x : ℚ, a ≤ x ∧ x ≤ b ∧ c ≤ x ∧ x ≤ e := by
  constructor
  · rintro ⟨h1, h2⟩
    exact ⟨max a c, le_max_left _ _, max_le hab h2, le_max_right _ _,
      max_le h1 hce⟩
  · rintro ⟨x, h1, h2, h3, h4⟩
    exact ⟨h1.trans h4, h3.trans h2⟩

theorem geomHitsPixel_iff (g : Geom) (r : RasterDataset) (i j : Nat)
    (hg : g.wf) (hx : 0 < r.resx) (hy : 0 < r.resy) :
    geomHitsPixel g r i j = true ↔
      ∃ x y : ℚ, g.contains x y ∧ pixelContains r i j x y := by
  have hpx : pixelXmin r j ≤ pixelXmax r j := by
    unfold pixelXmin pixelXmax
    nlinarith [hx.le]
  have hpy : pixelYmin r i ≤ pixelYmax r i := by
    unfold pixelYmin pixelYmax
    nlinarith [hy.le]
  unfold geomHitsPixel
  rw [decide_eq_true_iff]
  constructor
  · rintro ⟨h1, h2, h3, h4⟩
    obtain ⟨x, ha1, ha2, ha3, ha4⟩ := (interval_overlap hg.1 hpx).1 ⟨h1, h2⟩
    obtain ⟨y, hb1, hb2, hb3, hb4⟩ := (interval_overlap hg.2 hpy).1 ⟨h3, h4⟩
    exact ⟨x, y, ⟨ha1, ha2, hb1, hb2⟩, ⟨ha3, ha4, hb3, hb4⟩⟩
  · rintro ⟨x, y, ⟨hc1, hc2, hc3, hc4⟩, ⟨hp1, hp2, hp3, hp4⟩⟩
    exact ⟨hc1.trans hp2, hp1.trans hc2, hc3.trans hp4, hp3.trans hc4⟩

/-- A derived terrain raster: same shape contract as `RasterDataset`, but
its samples are real-valued since the terrain attributes pass through
trigonometric conversions. -/
structure TerrainRaster where
  width : Nat
  height : Nat
  resx : ℚ
  resy : ℚ
  originx : ℚ
  originy : ℚ
  crs : Nat
  data : List (Option ℝ)

/-- The shape invariant for terrain rasters. -/
def TerrainRaster.wf (t : TerrainRaster) : Prop :=
  t.data.length = t.width * t.height

/-- Central-difference local gradient (west-to-east, south-to-north) of `d`
at pixel `(i, j)`: `none` on the grid boundary or next to an invalid
pixel. -/
def gradAt (d : RasterDataset) (i j : Nat) : Option (ℚ × ℚ) :=
  if 0 < i ∧ i + 1 < d.height ∧ 0 < j ∧ j + 1 < d.width then
    match sampleAt d i (j+1), sampleAt d i (j-1),
        sampleAt d (i+1) j, sampleAt d (i-1) j with
    | some ve, some vw, some vs, some vn =>
        some ((ve - vw) / (2 * d.resx), (vn - vs) / (2 * d.resy))
    | _, _, _, _ => none
  else none

/-- Modelled from the spec: slope in degrees, computed from the local
gradient. -/
noncomputable def slopeVal (g : ℚ × ℚ) : ℝ :=
  Real.arctan (Real.sqrt ((g.1 : ℝ) ^ 2 + (g.2 : ℝ) ^ 2)) * 180 / Real.pi

/-- Modelled from the spec: aspect in degrees clockwise from north, computed
from the local gradient. -/
noncomputable def aspectVal (g : ℚ × ℚ) : ℝ :=
  180 - Real.arctan ((g.1 : ℝ) / (g.2 : ℝ)) * 180 / Real.pi

/-- Modelled from the spec: hillshade illumination of one pixel given sun
azimuth and altitude in degrees, from the local gradient. -/
noncomputable def hillshadeVal (azimuth altitude : ℝ) (g : ℚ × ℚ) : ℝ :=
  let zenithRad := (90 - altitude) * Real.pi / 180
  let azimuthRad := azimuth * Real.pi / 180
  let slopeRad := Real.arctan (Real.sqrt ((g.1 : ℝ) ^ 2 + (g.2 : ℝ) ^ 2))
  let aspectRad := Real.arctan ((g.1 : ℝ) / (g.2 : ℝ))
  255 * (Real.cos zenithRad * Real.cos slopeRad +
    Real.sin zenithRad * Real.sin slopeRad * Real.cos (azimuthRad - aspectRad))

/-- Pointwise derivation of a terrain raster from the local gradients of a
DEM. -/
noncomputable def derive (f : ℚ × ℚ → ℝ) (d : RasterDataset) : TerrainRaster :=
  { width := d.width, height := d.height, resx := d.resx, resy := d.resy,
    originx := d.originx, originy := d.originy, crs := d.crs,
    data := (List.range (d.width * d.height)).map fun k =>
      (gradAt d (k / d.width) (k % d.width)).map f }

/-- Modelled from the spec: TerrainOps slope — a pure function of the input
DEM. -/
noncomputable def slope (d : RasterDataset) : TerrainRaster :=
  derive slopeVal d

/-- Modelled from the spec: TerrainOps aspect — a pure function of the input
DEM. -/
noncomputable def aspect (d : RasterDataset) : TerrainRaster :=
  derive aspectVal d

/-- Modelled from the spec: TerrainOps hillshade — a pure function of the
input DEM and the sun azimuth/altitude parameters. -/
noncomputable def hillshade (d : RasterDataset) (azimuth altitude : ℝ) :
    TerrainRaster :=
  derive (hillshadeVal azimuth altitude) d

/-- A concrete 2×2 dataset (one invalid pixel) used to witness the claim
theorems. -/
def sampleRaster : RasterDataset :=
  { width := 2, height := 2, resx := 1, resy := 1, originx := 0, originy := 2,
    crs := 32633, data := [some 4, none, some 2, some 7] }

/-- A second concrete dataset on the same grid as `sampleRaster`. -/
def sampleRaster2 : RasterDataset :=
  { width := 2, height := 2, resx := 1, resy := 1, originx := 0, originy := 2,
    crs := 32633, data := [some 1, some 5, none, some 3] }

/-- A concrete dataset on a different grid (for the mismatch witness). -/
def sampleRaster3 : RasterDataset :=
  { width := 3, height := 1, resx := 1, resy := 1, originx := 0, originy := 1,
    crs := 32633, data := [some 1, some 5, none] }

/-- A concrete vector dataset: one box inside pixel `(0, 0)` of
`sampleRaster`. -/
def sampleVector : VectorDataset :=
  { crs := 32633, geoms := [⟨0, 1, 1, 2⟩] }

theorem sub_eq_ok (a b r : RasterDataset) (h : sub a b = .ok r) :
    compatible a b ∧
      r = { a with data := List.zipWith subSample a.data b.data } := by
  unfold sub at h
  by_cases hc : compatible a b
  · rw [if_pos hc] at h
    injection h with h
    exact ⟨hc, h.symm⟩
  · rw [if_neg hc] at h
    exact absurd h (by simp)

theorem zipWith_getD (f : Option ℚ → Option ℚ → Option ℚ)
    (l₁ l₂ : List (Option ℚ)) (k : Nat)
    (h₁ : k < l₁.length) (h₂ : k < l₂.length) :
    (List.zipWith f l₁ l₂).getD k none = f (l₁.getD k none) (l₂.getD k none) := by
  induction l₁ generalizing l₂ k with
  | nil => simp at h₁
  | cons x xs ih =>
    cases l₂ with
    | nil => simp at h₂
    | cons y ys =>
      cases k with
      | zero => rfl
      | succ n =>
        rw [List.zipWith_cons_cons, List.getD_cons_succ, List.getD_cons_succ,
          List.getD_cons_succ]
        exact ih ys n (by simpa using h₁) (by simpa using h₂)

/-- C1: for every RasterDataset `d`, the elementwise difference `d - d`
succeeds and every valid sample of the result is zero. -/
theorem claim_C1_sub_self_all_zero (d : RasterDataset) :
    ∃ r : RasterDataset, sub d d = .ok r ∧ ∀ q ∈ validVals r, q = 0 := by
  refine ⟨{ d with data := List.zipWith subSample d.data d.data }, ?_, ?_⟩
  · unfold sub
    rw [if_pos ⟨rfl, rfl, rfl⟩]
  · intro q hq
    exact subSample_self_mem_zero d.data q hq

/-- Witness for C1 at a concrete dataset. -/
theorem claim_C1_witness :
    ∃ r : RasterDataset, sub sampleRaster sampleRaster = .ok r ∧
      ∀ q ∈ validVals r, q = 0 :=
  claim_C1_sub_self_all_zero sampleRaster

/-- C2: reprojecting a dataset onto its own grid (itself as reference)
returns a dataset with the same width, height, resolution, bounds, CRS and
sample values — here exactly, hence within any tolerance. -/
theorem claim_C2_reproject_self_identity (d : RasterDataset) (hwf : d.wf)
    (hx : 0 < d.resx) (hy : 0 < d.resy) :
    ∃ r : RasterDataset, reproject d d = .ok r ∧ r.width = d.width ∧
      r.height = d.height ∧ r.resx = d.resx ∧ r.resy = d.resy ∧
      r.bounds = d.bounds ∧ r.crs = d.crs ∧ r.data = d.data :=
  ⟨d, reproject_self d hwf hx hy, rfl, rfl, rfl, rfl, rfl, rfl, rfl⟩

/-- Witness for C2 at a concrete dataset. -/
theorem claim_C2_witness :
    sampleRaster.wf ∧ (0 : ℚ) < sampleRaster.resx ∧
      (0 : ℚ) < sampleRaster.resy ∧
      (∃ r : RasterDataset, reproject sampleRaster sampleRaster = .ok r ∧
        r.width = sampleRaster.width ∧ r.height = sampleRaster.height ∧
        r.resx = sampleRaster.resx ∧ r.resy = sampleRaster.resy ∧
        r.bounds = sampleRaster.bounds ∧ r.crs = sampleRaster.crs ∧
        r.data = sampleRaster.data) :=
  ⟨by decide, by decide, by decide,
    claim_C2_reproject_self_identity sampleRaster (by decide) (by decide)
      (by decide)⟩

/-- C3: the masked mean of a raster under the all-true mask of its shape
equals the unmasked mean over its valid samples. -/
theorem claim_C3_full_mask_mean (d : RasterDataset) :
    maskedMean d (fullMask d) = .ok (rasterMean d) := by
  unfold maskedMean
  rw [if_pos ⟨rfl, rfl⟩, maskedVals_fullMask]
  rfl

/-- C4: saving a dataset and loading it back yields a dataset with the same
grid shape, resolution and sample values — here exactly, hence within any
tolerance. -/
theorem claim_C4_save_load_roundtrip (st : Store) (p : String)
    (d : RasterDataset) (hwf : d.wf) :
    ∃ r : RasterDataset, load (save st p d) p = .ok r ∧ r.width = d.width ∧
      r.height = d.height ∧ r.resx = d.resx ∧ r.resy = d.resy ∧
      r.data = d.data :=
  ⟨d, load_save st p d hwf, rfl, rfl, rfl, rfl, rfl⟩

/-- Witness for C4 at a concrete dataset and path. -/
theorem claim_C4_witness :
    sampleRaster.wf ∧
      (∃ r : RasterDataset,
        load (save emptyStore "temp_ddem.tif" sampleRaster) "temp_ddem.tif" =
          .ok r ∧ r.width = sampleRaster.width ∧
        r.height = sampleRaster.height ∧ r.resx = sampleRaster.resx ∧
        r.resy = sampleRaster.resy ∧ r.data = sampleRaster.data) :=
  ⟨by decide, claim_C4_save_load_roundtrip emptyStore "temp_ddem.tif"
    sampleRaster (by decide)⟩

/-- C5: elementwise subtraction succeeds with a new dataset exactly when the
operands are compatible (same shape and CRS), and otherwise fails with the
shape-mismatch error. -/
theorem claim_C5_sub_compatibility (a b : RasterDataset) :
    ((∃ r : RasterDataset, sub a b = .ok r) ↔ compatible a b) ∧
      (¬ compatible a b → sub a b = .error .shapeMismatchError) := by
  refine ⟨⟨?_, ?_⟩, ?_⟩
  · rintro ⟨r, hr⟩
    by_contra hc
    unfold sub at hr
    rw [if_neg hc] at hr
    exact absurd hr (by simp)
  · intro hc
    exact ⟨_, by unfold sub; rw [if_pos hc]⟩
  · intro hc
    unfold sub
    rw [if_neg hc]

/-- Witness for C5 at concrete datasets: a compatible pair succeeds, an
incompatible pair fails with the shape-mismatch error. -/
theorem claim_C5_witness :
    (((∃ r : RasterDataset, sub sampleRaster sampleRaster2 = .ok r) ↔
        compatible sampleRaster sampleRaster2) ∧
      (¬ compatible sampleRaster sampleRaster2 →
        sub sampleRaster sampleRaster2 = .error .shapeMismatchError)) ∧
    (((∃ r : RasterDataset, sub sampleRaster sampleRaster3 = .ok r) ↔
        compatible sampleRaster sampleRaster3) ∧
      (¬ compatible sampleRaster sampleRaster3 →
        sub sampleRaster sampleRaster3 = .error .shapeMismatchError)) :=
  ⟨claim_C5_sub_compatibility sampleRaster sampleRaster2,
    claim_C5_sub_compatibility sampleRaster sampleRaster3⟩

/-- C6: `create_mask` returns a boolean mask of the reference grid's shape
in which a pixel is true exactly when some geometry's coverage meets that
pixel's box. -/
theorem claim_C6_create_mask (v : VectorDataset) (r : RasterDataset)
    (hg : ∀ g ∈ v.geoms, g.wf) (hx : 0 < r.resx) (hy : 0 < r.resy) :
    (create_mask v r).width = r.width ∧
      (create_mask v r).height = r.height ∧
      ∀ i j : Nat, i < r.height → j < r.width →
        ((create_mask v r).data.getD (i * r.width + j) false = true ↔
          coverageIntersects v r i j) := by
  refine ⟨rfl, rfl, ?_⟩
  intro i j hi hj
  have hw : 0 < r.width := lt_of_le_of_lt (Nat.zero_le j) hj
  have hk : i * r.width + j < r.width * r.height := by
    calc i * r.width + j < i * r.width + r.width := by omega
      _ = (i + 1) * r.width := by ring
      _ ≤ r.height * r.width := Nat.mul_le_mul_right _ hi
      _ = r.width * r.height := Nat.mul_comm _ _
  have hdiv : (i * r.width + j) / r.width = i := by
    rw [Nat.mul_comm i r.width, Nat.mul_add_div hw, Nat.div_eq_of_lt hj,
      Nat.add_zero]
  have hmod : (i * r.width + j) % r.width = j := by
    rw [Nat.mul_comm i r.width, Nat.mul_add_mod, Nat.mod_eq_of_lt hj]
  have hlen : i * r.width + j <
      ((List.range (r.width * r.height)).map fun k =>
        v.geoms.any fun g =>
          geomHitsPixel g r (k / r.width) (k % r.width)).length := by
    rw [List.length_map, List.length_range]
    exact hk
  have hgetD : (create_mask v r).data.getD (i * r.width + j) false =
      v.geoms.any fun g => geomHitsPixel g r i j := by
    show ((List.range (r.width * r.height)).map fun k =>
      v.geoms.any fun g =>
        geomHitsPixel g r (k / r.width) (k % r.width)).getD
        (i * r.width + j) false = _
    simp only [List.getD_eq_getElem _ _ hlen, List.getElem_map,
      List.getElem_range, hdiv, hmod]
  rw [hgetD, List.any_eq_true]
  unfold coverageIntersects
  constructor
  · rintro ⟨g, hgm, hgp⟩
    exact ⟨g, hgm, (geomHitsPixel_iff g r i j (hg g hgm) hx hy).1 hgp⟩
  · rintro ⟨g, hgm, x, y, hcx, hpx⟩
    exact ⟨g, hgm,
      (geomHitsPixel_iff g r i j (hg g hgm) hx hy).2 ⟨x, y, hcx, hpx⟩⟩

/-- Witness for C6 at a concrete vector dataset and reference raster. -/
theorem claim_C6_witness :
    (∀ g ∈ sampleVector.geoms, g.wf) ∧ (0 : ℚ) < sampleRaster.resx ∧
      (0 : ℚ) < sampleRaster.resy ∧
      ((create_mask sampleVector sampleRaster).width = sampleRaster.width ∧
        (create_mask sampleVector sampleRaster).height =
          sampleRaster.height ∧
        ∀ i j : Nat, i < sampleRaster.height → j < sampleRaster.width →
          ((create_mask sampleVector sampleRaster).data.getD
              (i * sampleRaster.width + j) false = true ↔
            coverageIntersects sampleVector sampleRaster i j)) :=
  ⟨by decide, by decide, by decide,
    claim_C6_create_mask sampleVector sampleRaster (by decide) (by decide)
      (by decide)⟩

/-- C7: rasterizing an empty geometry collection onto a reference raster
yields a mask of the reference's shape whose every pixel is false. -/
theorem claim_C7_empty_mask (r : RasterDataset) (c : Nat) :
    (create_mask ⟨c, []⟩ r).width = r.width ∧
      (create_mask ⟨c, []⟩ r).height = r.height ∧
      ∀ b ∈ (create_mask ⟨c, []⟩ r).data, b = false := by
  refine ⟨rfl, rfl, ?_⟩
  intro x hx
  have hx' : x ∈ (List.range (r.width * r.height)).map
      fun _ => false := by
    simpa [create_mask] using hx
  rcases List.mem_map.1 hx' with ⟨k, _, hk⟩
  exact hk.symm

/-- Witness for C7 at a concrete reference raster. -/
theorem claim_C7_witness :
    (create_mask ⟨32633, []⟩ sampleRaster).width = sampleRaster.width ∧
      (create_mask ⟨32633, []⟩ sampleRaster).height = sampleRaster.height ∧
      ∀ b ∈ (create_mask ⟨32633, []⟩ sampleRaster).data, b = false :=
  claim_C7_empty_mask sampleRaster 32633

/-- C9: the terrain operations slope, aspect and hillshade are
deterministic: equal input grids and equal sun parameters give equal
derived rasters (they are pure functions of their arguments and mutate no
state). -/
theorem claim_C9_terrain_deterministic (a b : RasterDataset)
    (az₁ az₂ alt₁ alt₂ : ℝ) (hab : a = b) (haz : az₁ = az₂)
    (halt : alt₁ = alt₂) :
    slope a = slope b ∧ aspect a = aspect b ∧
      hillshade a az₁ alt₁ = hillshade b az₂ alt₂ := by
  subst hab haz halt
  exact ⟨rfl, rfl, rfl⟩

/-- Witness for C9 at a concrete dataset and sun parameters. -/
theorem claim_C9_witness :
    sampleRaster = sampleRaster ∧ (315 : ℝ) = 315 ∧ (45 : ℝ) = 45 ∧
      (slope sampleRaster = slope sampleRaster ∧
        aspect sampleRaster = aspect sampleRaster ∧
        hillshade sampleRaster 315 45 = hillshade sampleRaster 315 45) :=
  ⟨rfl, rfl, rfl, claim_C9_terrain_deterministic sampleRaster sampleRaster
    315 315 45 45 rfl rfl rfl⟩

/-- C10: in the elementwise difference of same-grid datasets, a pixel
invalid in either operand is invalid in the result, and a pixel valid in
both carries exactly the difference of the operands' samples. -/
theorem claim_C10_sub_pixelwise (a b r : RasterDataset) (hwa : a.wf)
    (hwb : b.wf) (h : sub a b = .ok r) (k : Nat)
    (hk : k < a.width * a.height) :
    ((a.data.getD k none = none ∨ b.data.getD k none = none) →
      r.data.getD k none = none) ∧
    (∀ u v : ℚ, a.data.getD k none = some u → b.data.getD k none = some v →
      r.data.getD k none = some (u - v)) := by
  obtain ⟨hc, hres⟩ := sub_eq_ok a b r h
  have h₁ : k < a.data.length := by rw [hwa]; exact hk
  have h₂ : k < b.data.length := by rw [hwb, ← hc.1, ← hc.2.1]; exact hk
  have hr : r.data.getD k none =
      subSample (a.data.getD k none) (b.data.getD k none) := by
    rw [hres]
    exact zipWith_getD subSample a.data b.data k h₁ h₂
  constructor
  · rintro (hca | hcb)
    · rw [hr, hca]
      cases b.data.getD k none <;> rfl
    · rw [hr, hcb]
      cases a.data.getD k none <;> rfl
  · intro u v hu hv
    rw [hr, hu, hv]
    rfl

/-- The elementwise difference of the two concrete sample datasets. -/
def sampleDiff : RasterDataset :=
  { width := 2, height := 2, resx := 1, resy := 1, originx := 0, originy := 2,
    crs := 32633, data := [some 3, none, none, some 4] }

theorem sub_sampleRasters :
    sub sampleRaster sampleRaster2 = .ok sampleDiff := by
  unfold sub
  rw [if_pos ⟨rfl, rfl, rfl⟩]
  have hdata : List.zipWith subSample sampleRaster.data sampleRaster2.data =
      sampleDiff.data := by
    show List.zipWith subSample [some 4, none, some 2, some 7]
      [some 1, some 5, none, some 3] = [some (3 : ℚ), none, none, some 4]
    norm_num [subSample]
  rw [hdata]
  rfl

/-- Witness for C10 at concrete datasets and pixel 0. -/
theorem claim_C10_witness :
    sampleRaster.wf ∧ sampleRaster2.wf ∧
      sub sampleRaster sampleRaster2 = .ok sampleDiff ∧
      (0 : Nat) < sampleRaster.width * sampleRaster.height ∧
      (((sampleRaster.data.getD 0 none = none ∨
          sampleRaster2.data.getD 0 none = none) →
        sampleDiff.data.getD 0 none = none) ∧
      (∀ u v : ℚ, sampleRaster.data.getD 0 none = some u →
        sampleRaster2.data.getD 0 none = some v →
        sampleDiff.data.getD 0 none = some (u - v))) :=
  ⟨by decide, by decide, sub_sampleRasters, by decide,
    claim_C10_sub_pixelwise sampleRaster sampleRaster2 sampleDiff (by decide)
      (by decide) sub_sampleRasters 0 (by decide)⟩

/-- C8: every dataset produced by the modelled operations (load, reproject,
elementwise subtraction, slope, aspect, hillshade, rasterize) satisfies
`width * height = sample_count`, and width/height, resolution, bounds and
origin are mutually consistent: any three of them determine the fourth. -/
theorem claim_C8_grid_invariants (st : Store) (p : String)
    (a b r₁ r₂ r₃ : RasterDataset) (v : VectorDataset) (az alt : ℝ)
    (c d : RasterDataset) (h₁ : load st p = .ok r₁)
    (h₂ : reproject a b = .ok r₂) (h₃ : sub a b = .ok r₃) (hwa : a.wf)
    (hwb : b.wf) :
    r₁.wf ∧ r₂.wf ∧ r₃.wf ∧ (slope a).wf ∧ (aspect a).wf ∧
      (hillshade a az alt).wf ∧ (create_mask v a).wf ∧
      ((c.width = d.width ∧ c.height = d.height ∧ c.resx = d.resx ∧
          c.resy = d.resy ∧ c.originx = d.originx ∧ c.originy = d.originy) →
        c.bounds = d.bounds) ∧
      ((0 < c.width ∧ 0 < c.height ∧ c.width = d.width ∧
          c.height = d.height ∧ c.bounds = d.bounds) →
        c.resx = d.resx ∧ c.resy = d.resy) ∧
      (c.bounds = d.bounds → c.originx = d.originx ∧ c.originy = d.originy) ∧
      ((0 < c.resx ∧ 0 < c.resy ∧ c.resx = d.resx ∧ c.resy = d.resy ∧
          c.bounds = d.bounds) → c.width = d.width ∧ c.height = d.height) := by
  have hr₁ : r₁.wf := by
    cases hst : st p with
    | none =>
      unfold load at h₁
      rw [hst] at h₁
      exact absurd h₁ (by simp)
    | some f =>
      have h₁' : decodeRaster f = .ok r₁ := by
        unfold load at h₁
        rw [hst] at h₁
        exact h₁
      unfold decodeRaster at h₁'
      by_cases hlen : f.samples.length = f.width * f.height
      · rw [if_pos hlen] at h₁'
        injection h₁' with h₁'
        rw [← h₁']
        exact hlen
      · rw [if_neg hlen] at h₁'
        exact absurd h₁' (by simp)
  have hr₂ : r₂.wf := by
    unfold reproject at h₂
    by_cases hres : a.resx ≤ 0 ∨ a.resy ≤ 0 ∨ b.resx ≤ 0 ∨ b.resy ≤ 0
    · rw [if_pos hres] at h₂
      exact absurd h₂ (by simp)
    · rw [if_neg hres] at h₂
      injection h₂ with h₂
      rw [← h₂]
      show ((List.range (b.width * b.height)).map _).length =
        b.width * b.height
      rw [List.length_map, List.length_range]
  have hr₃ : r₃.wf := by
    obtain ⟨hc, hres⟩ := sub_eq_ok a b r₃ h₃
    rw [hres]
    show (List.zipWith subSample a.data b.data).length = a.width * a.height
    rw [List.length_zipWith, hwa, hwb, ← hc.1, ← hc.2.1, Nat.min_self]
  have hterrain : ∀ f : ℚ × ℚ → ℝ, (derive f a).wf := by
    intro f
    show ((List.range (a.width * a.height)).map _).length =
      a.width * a.height
    rw [List.length_map, List.length_range]
  have hmask : (create_mask v a).wf := by
    show ((List.range (a.width * a.height)).map _).length =
      a.width * a.height
    rw [List.length_map, List.length_range]
  refine ⟨hr₁, hr₂, hr₃, hterrain _, hterrain _, hterrain _, hmask,
    ?_, ?_, ?_, ?_⟩
  · rintro ⟨hw, hh, hrx, hry, hox, hoy⟩
    unfold RasterDataset.bounds
    rw [hw, hh, hrx, hry, hox, hoy]
  · rintro ⟨hw0, hh0, hw, hh, hb⟩
    unfold RasterDataset.bounds at hb
    rw [Bounds.mk.injEq] at hb
    obtain ⟨hl, hbm, hrt, ht⟩ := hb
    rw [hl, hw] at hrt
    rw [ht, hh] at hbm
    have hwQ : ((d.width : ℚ)) ≠ 0 := by
      rw [← hw]
      exact_mod_cast Nat.pos_iff_ne_zero.1 hw0
    have hhQ : ((d.height : ℚ)) ≠ 0 := by
      rw [← hh]
      exact_mod_cast Nat.pos_iff_ne_zero.1 hh0
    constructor
    · exact mul_left_cancel₀ hwQ (add_left_cancel hrt)
    · exact mul_left_cancel₀ hhQ (sub_right_injective hbm)
  · intro hb
    unfold RasterDataset.bounds at hb
    rw [Bounds.mk.injEq] at hb
    exact ⟨hb.1, hb.2.2.2⟩
  · rintro ⟨hx0, hy0, hrx, hry, hb⟩
    unfold RasterDataset.bounds at hb
    rw [Bounds.mk.injEq] at hb
    obtain ⟨hl, hbm, hrt, ht⟩ := hb
    rw [hl, hrx] at hrt
    rw [ht, hry] at hbm
    have hxQ : d.resx ≠ 0 := by
      rw [← hrx]
      exact ne_of_gt hx0
    have hyQ : d.resy ≠ 0 := by
      rw [← hry]
      exact ne_of_gt hy0
    constructor
    · exact_mod_cast mul_right_cancel₀ hxQ (add_left_cancel hrt)
    · exact_mod_cast mul_right_cancel₀ hyQ (sub_right_injective hbm)

/-- The elementwise difference of `sampleRaster` with itself. -/
def sampleSelfDiff : RasterDataset :=
  { width := 2, height := 2, resx := 1, resy := 1, originx := 0, originy := 2,
    crs := 32633, data := [some 0, none, some 0, some 0] }

theorem sub_sampleRaster_self :
    sub sampleRaster sampleRaster = .ok sampleSelfDiff := by
  unfold sub
  rw [if_pos ⟨rfl, rfl, rfl⟩]
  have hdata : List.zipWith subSample sampleRaster.data sampleRaster.data =
      sampleSelfDiff.data := by
    show List.zipWith subSample [some 4, none, some 2, some 7]
      [some 4, none, some 2, some 7] = [some (0 : ℚ), none, some 0, some 0]
    norm_num [subSample]
  rw [hdata]
  rfl

/-- Witness for C8 at concrete inputs: a saved-then-loaded dataset, a
self-reprojection, and a concrete difference. -/
theorem claim_C8_witness :
    load (save emptyStore "t" sampleRaster) "t" = .ok sampleRaster ∧
    reproject sampleRaster sampleRaster = .ok sampleRaster ∧
    sub sampleRaster sampleRaster = .ok sampleSelfDiff ∧
    sampleRaster.wf ∧
    (sampleRaster.wf ∧ sampleRaster.wf ∧ sampleSelfDiff.wf ∧
      (slope sampleRaster).wf ∧ (aspect sampleRaster).wf ∧
      (hillshade sampleRaster 315 45).wf ∧
      (create_mask sampleVector sampleRaster).wf ∧
      ((sampleRaster.width = sampleRaster2.width ∧
          sampleRaster.height = sampleRaster2.height ∧
          sampleRaster.resx = sampleRaster2.resx ∧
          sampleRaster.resy = sampleRaster2.resy ∧
          sampleRaster.originx = sampleRaster2.originx ∧
          sampleRaster.originy = sampleRaster2.originy) →
        sampleRaster.bounds = sampleRaster2.bounds) ∧
      ((0 < sampleRaster.width ∧ 0 < sampleRaster.height ∧
          sampleRaster.width = sampleRaster2.width ∧
          sampleRaster.height = sampleRaster2.height ∧
          sampleRaster.bounds = sampleRaster2.bounds) →
        sampleRaster.resx = sampleRaster2.resx ∧
          sampleRaster.resy = sampleRaster2.resy) ∧
      (sampleRaster.bounds = sampleRaster2.bounds →
        sampleRaster.originx = sampleRaster2.originx ∧
          sampleRaster.originy = sampleRaster2.originy) ∧
      ((0 < sampleRaster.resx ∧ 0 < sampleRaster.resy ∧
          sampleRaster.resx = sampleRaster2.resx ∧
          sampleRaster.resy = sampleRaster2.resy ∧
          sampleRaster.bounds = sampleRaster2.bounds) →
        sampleRaster.width = sampleRaster2.width ∧
          sampleRaster.height = sampleRaster2.height)) :=
  ⟨load_save emptyStore "t" sampleRaster (by decide),
    reproject_self sampleRaster (by decide) (by decide) (by decide),
    sub_sampleRaster_self, by decide,
    claim_C8_grid_invariants (save emptyStore "t" sampleRaster) "t"
      sampleRaster sampleRaster sampleRaster sampleRaster sampleSelfDiff
      sampleVector 315 45 sampleRaster sampleRaster2
      (load_save emptyStore "t" sampleRaster (by decide))
      (reproject_self sampleRaster (by decide) (by decide) (by decide))
      sub_sampleRaster_self (by decide) (by decide)⟩

end XdemDemo

